import Mathlib

/-
Verification development for the DeutschLernmaster quiz engine
(src/client/src/components/test-session.tsx and collaborators).

The quiz core is embedded shallowly:
- JavaScript strings are Lean strings; the relevant JS string methods
  (toLowerCase restricted to ASCII letters, trim) are modelled on the
  underlying character lists.
- The unseeded random shuffles in the source, namely
  sort of a function returning Math.random() - 0.5, always produce some
  permutation of their input; they are modelled as explicit function
  parameters together with permutation hypotheses in the theorems.
- JS strict equality across types (the comparison of a numeric word id
  with the string entries of wordIds in getFilteredWords) is modelled by
  a small dynamic value type JsValue whose decidable equality is false
  across constructors, exactly as === is false across types.
-/

namespace DeutschLern

/-- Model of the effect of JS toLowerCase on a single character of the
data in this application: ASCII uppercase letters are shifted to
lowercase, every other character is unchanged. -/
def jsCharToLower (c : Char) : Char :=
  if 65 ≤ c.toNat ∧ c.toNat ≤ 90 then Char.ofNat (c.toNat + 32) else c

/-- Whitespace predicate used by the model of JS trim, stated on
codepoints: space, tab, newline, carriage return. -/
def jsIsWs (c : Char) : Bool :=
  c.toNat == 32 || c.toNat == 9 || c.toNat == 10 || c.toNat == 13

/-- Model of JS String.prototype.toLowerCase. -/
def jsToLower (s : String) : String :=
  ⟨s.data.map jsCharToLower⟩

/-- Trimming a character list at both ends. -/
def jsTrimList (l : List Char) : List Char :=
  ((l.dropWhile jsIsWs).reverse.dropWhile jsIsWs).reverse

/-- Model of JS String.prototype.trim. -/
def jsTrim (s : String) : String :=
  ⟨jsTrimList s.data⟩

/-- Normalization in the order the code performs it:
answer.toLowerCase().trim(). -/
def normCode (s : String) : String :=
  jsTrim (jsToLower s)

/-- Normalization in the order the specification words it: trimmed and
then lowercased. -/
def normSpec (s : String) : String :=
  jsToLower (jsTrim s)

lemma jsIsWs_jsCharToLower (c : Char) : jsIsWs (jsCharToLower c) = jsIsWs c := by
  unfold jsCharToLower
  split
  · rename_i h
    obtain ⟨h1, h2⟩ := h
    obtain ⟨n, hn⟩ : ∃ n, c.toNat = n := ⟨_, rfl⟩
    rw [hn] at h1 h2
    have hws : jsIsWs c = false := by
      unfold jsIsWs
      rw [hn]
      simp only [Bool.or_eq_false_iff, beq_eq_false_iff_ne, ne_eq]
      omega
    rw [hws, hn]
    interval_cases n <;> decide
  · rfl

lemma dropWhile_map_lower (l : List Char) :
    (l.map jsCharToLower).dropWhile jsIsWs = (l.dropWhile jsIsWs).map jsCharToLower := by
  rw [List.dropWhile_map]
  have h : jsIsWs ∘ jsCharToLower = jsIsWs := funext jsIsWs_jsCharToLower
  rw [h]

lemma jsTrimList_map_lower (l : List Char) :
    jsTrimList (l.map jsCharToLower) = (jsTrimList l).map jsCharToLower := by
  unfold jsTrimList
  rw [dropWhile_map_lower, ← List.map_reverse, dropWhile_map_lower, ← List.map_reverse]

/-- The two normalization orders agree: lowercasing and trimming
commute, because lowercasing maps whitespace to itself. -/
lemma normCode_eq_normSpec (s : String) : normCode s = normSpec s := by
  unfold normCode normSpec jsTrim jsToLower
  exact congrArg String.mk (jsTrimList_map_lower s.data)

/-- A word record, per the words table in src/shared/schema.ts.
Nullable text columns are Options; id is the serial primary key. -/
structure Word where
  id : Nat
  article : Option String
  german : String
  plural : Option String
  pluralSuffix : Option String
  turkish : String
  category : String
  isFavorite : Bool
  wo : Option String
  wohin : Option String
  woher : Option String
deriving DecidableEq, Repr

/-- A favorite list, per the favoriteLists table in
src/shared/schema.ts: its wordIds column is an array of strings. -/
structure FavoriteList where
  id : Nat
  name : String
  wordIds : List String
deriving DecidableEq, Repr

/-- The eight test modes of src/shared/schema.ts. -/
inductive TestMode where
  | artikel
  | plural
  | trDe
  | deTr
  | sentence
  | wo
  | wohin
  | woher
deriving DecidableEq, Repr

/-- The three test types of src/shared/schema.ts. -/
inductive TestType where
  | multiple
  | fill
  | mixed
deriving DecidableEq, Repr

/-- The three test sources of src/shared/schema.ts. -/
inductive TestSource where
  | wordlist
  | category
  | favorites
deriving DecidableEq, Repr

/-- The per-question type after resolution: multiple or fill. -/
inductive QType where
  | multiple
  | fill
deriving DecidableEq, Repr

/-- A generated question, per the TestQuestion interface of
test-session.tsx; options is present exactly for multiple choice. -/
structure TestQuestion where
  id : Nat
  question : String
  correctAnswer : String
  options : Option (List String)
  type : QType
deriving DecidableEq, Repr

/-- JS truthiness of an optional string: null and the empty string are
falsy, every other string is truthy. -/
def truthy : Option String → Bool
  | none => false
  | some s => !(s == "")

/-- JS template interpolation of a nullable string: null renders as the
text null. -/
def jsTemplate (o : Option String) : String :=
  o.getD "null"

/-- JS o or-else empty string: the result of the idiom (o || "") on a
nullable string. -/
def orEmpty (o : Option String) : String :=
  o.getD ""

/-- A dynamic JS value as far as strict equality is concerned here:
strings and numbers, with equality false across the two kinds, as ===
is false across types. -/
inductive JsValue where
  | str : String → JsValue
  | num : Nat → JsValue
deriving DecidableEq, Repr

/-- Model of Array.prototype.includes, which compares with strict
equality. -/
def jsIncludes (l : List JsValue) (v : JsValue) : Bool :=
  l.contains v

/-- getFilteredWords of test-session.tsx (lines 51 to 67): resolves the
candidate pool from the configured source. The wordIds entries are
strings while a word id is a number, so the membership test on the
specific-favorite-list branch compares across types. -/
def getFilteredWords (source : TestSource) (selectedCategory : Option String)
    (selectedFavoriteList : Option String) (allWords : List Word)
    (favoriteWords : List Word) (favoriteLists : List FavoriteList) : List Word :=
  match source with
  | .wordlist => allWords
  | .category =>
      if truthy selectedCategory then
        allWords.filter (fun word => word.category == orEmpty selectedCategory)
      else []
  | .favorites =>
      if selectedFavoriteList == some "all" then favoriteWords
      else if truthy selectedFavoriteList && decide (0 < favoriteLists.length) then
        match favoriteLists.find? (fun l => toString l.id == orEmpty selectedFavoriteList) with
        | some selectedList =>
            allWords.filter (fun word =>
              jsIncludes (selectedList.wordIds.map JsValue.str) (JsValue.num word.id))
        | none => []
      else []

/-- generateQuestionForWord of test-session.tsx (lines 101 to 201).
The in-place option sort with a random comparator is modelled by the
optShuffle parameter; theorems assume it permutes its input. -/
def generateQuestionForWord (mode : TestMode) (optShuffle : List String → List String)
    (word : Word) (index : Nat) (ty : QType) (allWords : List Word) : TestQuestion :=
  let result : String × String × List String :=
    match mode with
    | .artikel =>
        let correctAnswer := orEmpty word.article
        let options :=
          if ty = .multiple then
            optShuffle
              (((["der", "die", "das"].filter (fun a => a != correctAnswer))).concat correctAnswer)
          else []
        ("\"" ++ word.german ++ "\" kelimesinin artikeli nedir?", correctAnswer, options)
    | .plural =>
        let correctAnswer := orEmpty word.plural
        let options :=
          if ty = .multiple then
            let otherPlurals :=
              ((allWords.filter (fun w => w.id != word.id && truthy w.plural)).map
                (fun w => orEmpty w.plural)).take 3
            optShuffle (otherPlurals ++ [correctAnswer])
          else []
        ("\"" ++ jsTemplate word.article ++ " " ++ word.german ++ "\" kelimesinin çoğulu nedir?",
          correctAnswer, options)
    | .trDe =>
        let correctAnswer := jsTemplate word.article ++ " " ++ word.german
        let options :=
          if ty = .multiple then
            let otherGerman :=
              ((allWords.filter (fun w => w.id != word.id)).map
                (fun w => jsTemplate w.article ++ " " ++ w.german)).take 3
            optShuffle (otherGerman ++ [correctAnswer])
          else []
        ("\"" ++ word.turkish ++ "\" kelimesinin Almancası nedir?", correctAnswer, options)
    | .deTr =>
        let correctAnswer := word.turkish
        let options :=
          if ty = .multiple then
            let otherTurkish :=
              ((allWords.filter (fun w => w.id != word.id)).map (fun w => w.turkish)).take 3
            optShuffle (otherTurkish ++ [correctAnswer])
          else []
        ("\"" ++ jsTemplate word.article ++ " " ++ word.german ++ "\" kelimesinin Türkçesi nedir?",
          correctAnswer, options)
    | .wo =>
        let correctAnswer := orEmpty word.wo
        let options :=
          if ty = .multiple then
            let otherWo :=
              ((allWords.filter (fun w => w.id != word.id && truthy w.wo)).map
                (fun w => orEmpty w.wo)).take 3
            optShuffle (otherWo ++ [correctAnswer])
          else []
        ("\"" ++ jsTemplate word.article ++ " " ++ word.german ++ "\" için WO? (Nerede?) cevabı nedir?",
          correctAnswer, options)
    | .wohin =>
        let correctAnswer := orEmpty word.wohin
        let options :=
          if ty = .multiple then
            let otherWohin :=
              ((allWords.filter (fun w => w.id != word.id && truthy w.wohin)).map
                (fun w => orEmpty w.wohin)).take 3
            optShuffle (otherWohin ++ [correctAnswer])
          else []
        ("\"" ++ jsTemplate word.article ++ " " ++ word.german ++ "\" için WOHIN? (Nereye?) cevabı nedir?",
          correctAnswer, options)
    | .woher =>
        let correctAnswer := orEmpty word.woher
        let options :=
          if ty = .multiple then
            let otherWoher :=
              ((allWords.filter (fun w => w.id != word.id && truthy w.woher)).map
                (fun w => orEmpty w.woher)).take 3
            optShuffle (otherWoher ++ [correctAnswer])
          else []
        ("\"" ++ jsTemplate word.article ++ " " ++ word.german ++ "\" için WOHER? (Nereden?) cevabı nedir?",
          correctAnswer, options)
    | .sentence =>
        ("\"" ++ word.turkish ++ "\" kelimesinin Almancası nedir?", word.german, [])
  { id := index
    question := result.1
    correctAnswer := result.2.1
    options := if ty = .multiple then some result.2.2 else none
    type := ty }

/-- Resolution of the per-question type (test-session.tsx lines 86 to
87): mixed flips a coin per question, the other types are fixed. The
coin is indexed by question position. -/
def resolveQuestionType (coin : Nat → Bool) (testType : TestType) (index : Nat) : QType :=
  match testType with
  | .mixed => if coin index then .multiple else .fill
  | .multiple => .multiple
  | .fill => .fill

/-- The words sampled for a session (test-session.tsx lines 82 to 83):
the shuffled pool truncated to min of requested count and pool size.
The biased random sort is modelled by the shuffle parameter; theorems
assume it permutes its input. -/
def sampleWords (shuffle : List Word → List Word) (questionCount : Nat)
    (sourceWords : List Word) : List Word :=
  (shuffle sourceWords).take (min questionCount sourceWords.length)

/-- generateQuestions of test-session.tsx (lines 78 to 99): returns no
questions on an empty pool, otherwise one question per sampled word.
Note there is no filtering by presence of the answer field of the
mode. -/
def generateQuestions (shuffle : List Word → List Word)
    (optShuffles : Nat → List String → List String) (coin : Nat → Bool)
    (mode : TestMode) (testType : TestType) (questionCount : Nat)
    (sourceWords : List Word) : List TestQuestion :=
  if sourceWords.length = 0 then []
  else
    (sampleWords shuffle questionCount sourceWords).enum.map
      (fun p =>
        generateQuestionForWord mode (optShuffles p.1) p.2 p.1
          (resolveQuestionType coin testType p.1) sourceWords)

/-- The per-question correctness test of getCorrectCount
(test-session.tsx lines 222 to 227): the stored answer, or the empty
string when absent, lowercased then trimmed, compared to the correct
answer lowercased then trimmed. -/
def isCorrectAnswer (stored : Option String) (correct : String) : Bool :=
  normCode (orEmpty stored) == normCode correct

/-- getCorrectCount of test-session.tsx (lines 222 to 227). -/
def getCorrectCount (questions : List TestQuestion) (answers : Nat → Option String) : Nat :=
  (questions.enum.filter (fun p => isCorrectAnswer (answers p.1) p.2.correctAnswer)).length

/-- JS Math.round on a rational: floor of the value plus one half. -/
def jsRound (q : ℚ) : ℤ :=
  ⌊q + 1 / 2⌋

/-- The score computation of handleTestComplete (the TestTab component)
and of the result screen of test-session.tsx: round of correctCount
over totalQuestions times 100. -/
def sessionScore (questions : List TestQuestion) (answers : Nat → Option String) : ℤ :=
  jsRound ((getCorrectCount questions answers : ℚ) / (questions.length : ℚ) * 100)

/-- The session state of test-session.tsx relevant to scoring: the
generated questions, the stored answers keyed by question index, and
the showResult flag set by finishTest. -/
structure SessionState where
  questions : List TestQuestion
  userAnswers : Nat → Option String
  showResult : Bool

/-- finishTest of test-session.tsx (lines 210 to 220): its lasting
state change is setting showResult; the score itself is recomputed from
questions and answers. -/
def finishTest (s : SessionState) : SessionState :=
  { s with showResult := true }

/-- The result displayed for a session: correct count and score, both
derived purely from questions and answers. -/
def sessionResult (s : SessionState) : Nat × ℤ :=
  (getCorrectCount s.questions s.userAnswers, sessionScore s.questions s.userAnswers)

/-- The answer-source field of a mode whose answer is read through the
or-empty idiom: article, plural, wo, wohin, woher. -/
def answerSource (mode : TestMode) (w : Word) : Option String :=
  match mode with
  | .artikel => w.article
  | .plural => w.plural
  | .wo => w.wo
  | .wohin => w.wohin
  | .woher => w.woher
  | _ => none

/-- A concrete word with no wo, wohin or woher value. -/
def wordTisch : Word :=
  { id := 1, article := some "der", german := "Tisch", plural := some "Tische",
    pluralSuffix := none, turkish := "masa", category := "mobilya", isFavorite := false,
    wo := none, wohin := none, woher := none }

/-- A concrete word whose plural is Autos. -/
def wordAuto1 : Word :=
  { id := 1, article := some "das", german := "Auto", plural := some "Autos",
    pluralSuffix := none, turkish := "araba", category := "tasit", isFavorite := false,
    wo := none, wohin := none, woher := none }

/-- A second concrete word with the same plural Autos. -/
def wordAuto2 : Word :=
  { id := 2, article := some "das", german := "Kraftfahrzeug", plural := some "Autos",
    pluralSuffix := none, turkish := "motorlu araba", category := "tasit", isFavorite := false,
    wo := none, wohin := none, woher := none }

/-- A concrete word with article der. -/
def wordLoeffel : Word :=
  { id := 1, article := some "der", german := "Löffel", plural := some "Löffel",
    pluralSuffix := none, turkish := "kaşık", category := "mutfak", isFavorite := false,
    wo := none, wohin := none, woher := none }

/-- A concrete peer word with article die. -/
def wordGabel : Word :=
  { id := 2, article := some "die", german := "Gabel", plural := some "Gabeln",
    pluralSuffix := none, turkish := "çatal", category := "mutfak", isFavorite := false,
    wo := none, wohin := none, woher := none }

/-- A concrete word whose wo value is zu Hause, stored with a lowercase
z and an uppercase H. -/
def wordZuHause : Word :=
  { id := 1, article := some "der", german := "Tisch", plural := none,
    pluralSuffix := none, turkish := "masa", category := "mobilya", isFavorite := false,
    wo := some "zu Hause", wohin := none, woher := none }

/-- A concrete favorite list whose wordIds holds the string form of the
id of wordTisch. -/
def listEins : FavoriteList :=
  { id := 1, name := "Liste", wordIds := ["1"] }

/-- A concrete question used to instantiate scoring theorems. -/
def qSample : TestQuestion :=
  { id := 0, question := "q", correctAnswer := "der", options := none, type := .fill }

/-- C4: finishing a session counts as correct exactly the questions
whose stored answer (empty string if unanswered), trimmed and
lowercased, equals the correct answer trimmed and lowercased; the
reported score is round of correctCount over totalQuestions times 100;
and the stored answer with text space Der space scores equal to the
correct answer der. -/
theorem finish_scoring_normalized (questions : List TestQuestion)
    (answers : Nat → Option String) :
    getCorrectCount questions answers
      = (questions.enum.filter (fun p =>
          normSpec (orEmpty (answers p.1)) == normSpec p.2.correctAnswer)).length
    ∧ sessionScore questions answers
      = jsRound ((getCorrectCount questions answers : ℚ) / (questions.length : ℚ) * 100)
    ∧ isCorrectAnswer (some " Der ") "der" = true := by
  refine ⟨?_, rfl, by decide⟩
  have hfun : (fun p : Nat × TestQuestion => isCorrectAnswer (answers p.1) p.2.correctAnswer)
      = (fun p : Nat × TestQuestion =>
          normSpec (orEmpty (answers p.1)) == normSpec p.2.correctAnswer) := by
    funext p
    unfold isCorrectAnswer
    rw [normCode_eq_normSpec, normCode_eq_normSpec]
  unfold getCorrectCount
  rw [hfun]

/-- C8: scoring is idempotent; finishing is idempotent on the session
state and the derived correct count and score do not change when the
finish operation is applied again with no intervening answer edits. -/
theorem finish_scoring_idempotent (s : SessionState) :
    finishTest (finishTest s) = finishTest s
    ∧ sessionResult (finishTest (finishTest s)) = sessionResult (finishTest s)
    ∧ sessionResult (finishTest s) = sessionResult s :=
  ⟨rfl, rfl, rfl⟩

/-- C10: for a non-empty question set the correct count is at most the
number of questions and the computed score lies between 0 and 100. -/
theorem score_in_bounds (questions : List TestQuestion) (answers : Nat → Option String)
    (h : questions ≠ []) :
    getCorrectCount questions answers ≤ questions.length
    ∧ 0 ≤ sessionScore questions answers
    ∧ sessionScore questions answers ≤ 100 := by
  have hlen : getCorrectCount questions answers ≤ questions.length := by
    unfold getCorrectCount
    calc (questions.enum.filter (fun p =>
            isCorrectAnswer (answers p.1) p.2.correctAnswer)).length
        ≤ questions.enum.length := List.length_filter_le _ _
      _ = questions.length := List.enum_length
  have hn : (0 : ℚ) < (questions.length : ℚ) := by
    have hp : 0 < questions.length := List.length_pos.mpr h
    exact_mod_cast hp
  have hc : (getCorrectCount questions answers : ℚ) ≤ (questions.length : ℚ) := by
    exact_mod_cast hlen
  have hx0 : (0 : ℚ) ≤ (getCorrectCount questions answers : ℚ) / (questions.length : ℚ) * 100 := by
    positivity
  have hx100 : (getCorrectCount questions answers : ℚ) / (questions.length : ℚ) * 100 ≤ 100 := by
    have hdiv : (getCorrectCount questions answers : ℚ) / (questions.length : ℚ) ≤ 1 :=
      (div_le_one hn).mpr hc
    nlinarith
  refine ⟨hlen, ?_, ?_⟩
  · unfold sessionScore jsRound
    rw [Int.le_floor]
    push_cast
    linarith
  · unfold sessionScore jsRound
    have hmono : (⌊(getCorrectCount questions answers : ℚ) / (questions.length : ℚ) * 100 + 1 / 2⌋ : ℤ)
        ≤ ⌊(100 : ℚ) + 1 / 2⌋ := Int.floor_le_floor (by linarith)
    have h100 : (⌊(100 : ℚ) + 1 / 2⌋ : ℤ) = 100 := by
      rw [Int.floor_eq_iff]
      norm_num
    rw [h100] at hmono
    exact hmono

/-- Witness for C10 at a concrete one-question session with no stored
answers. -/
theorem score_in_bounds_witness :
    getCorrectCount [qSample] (fun _ => none) ≤ [qSample].length
    ∧ 0 ≤ sessionScore [qSample] (fun _ => none)
    ∧ sessionScore [qSample] (fun _ => none) ≤ 100 :=
  score_in_bounds [qSample] (fun _ => none) (by decide)

/-- C5: a started session on a non-empty pool has exactly min of the
requested count and the pool size many questions, and the sampled words
are pairwise distinct members of the pool. -/
theorem session_sampling_bound (shuffle : List Word → List Word)
    (optShuffles : Nat → List String → List String) (coin : Nat → Bool)
    (mode : TestMode) (testType : TestType) (questionCount : Nat) (pool : List Word)
    (hpool : pool ≠ []) (hshuffle : (shuffle pool).Perm pool) (hnodup : pool.Nodup) :
    (generateQuestions shuffle optShuffles coin mode testType questionCount pool).length
      = min questionCount pool.length
    ∧ (sampleWords shuffle questionCount pool).Nodup
    ∧ ∀ w ∈ sampleWords shuffle questionCount pool, w ∈ pool := by
  have hlen0 : (shuffle pool).length = pool.length := hshuffle.length_eq
  have hsub : (sampleWords shuffle questionCount pool).Sublist (shuffle pool) := by
    unfold sampleWords
    exact List.take_sublist _ _
  refine ⟨?_, ?_, ?_⟩
  · unfold generateQuestions
    rw [if_neg (fun hh => hpool (List.length_eq_zero.mp hh))]
    rw [List.length_map, List.enum_length]
    unfold sampleWords
    rw [List.length_take, hlen0]
    omega
  · exact List.Nodup.sublist hsub (hshuffle.nodup_iff.mpr hnodup)
  · intro w hw
    exact hshuffle.mem_iff.mp (hsub.subset hw)

/-- Witness for C5 on a concrete two-word pool with the identity
shuffle and requested count 1. -/
theorem session_sampling_bound_witness :
    (generateQuestions id (fun _ => id) (fun _ => true) .deTr .fill 1
        [wordAuto1, wordAuto2]).length = min 1 [wordAuto1, wordAuto2].length
    ∧ (sampleWords id 1 [wordAuto1, wordAuto2]).Nodup
    ∧ ∀ w ∈ sampleWords id 1 [wordAuto1, wordAuto2], w ∈ [wordAuto1, wordAuto2] :=
  session_sampling_bound id (fun _ => id) (fun _ => true) .deTr .fill 1
    [wordAuto1, wordAuto2] (by decide) (List.Perm.refl _) (by decide)

/-- The correct answer is always a member of a shuffled list built by
appending it to the distractors. -/
lemma mem_shuffled_concat (optShuffle : List String → List String)
    (hperm : ∀ l, (optShuffle l).Perm l) (dist : List String) (c : String) :
    c ∈ optShuffle (dist ++ [c]) :=
  (hperm _).mem_iff.mpr (by simp)

/-- C2 amended: for every multiple-choice question in the seven
explicitly handled modes the correct answer is an element of the
options, and in artikel mode the options contain the correct answer
exactly once; the claimed deduplication of distractors against the
correct answer does not hold in the other modes. -/
theorem multiple_choice_option_membership (mode : TestMode)
    (optShuffle : List String → List String) (word : Word) (index : Nat)
    (pool : List Word) (hperm : ∀ l, (optShuffle l).Perm l) (hmode : mode ≠ .sentence) :
    (generateQuestionForWord mode optShuffle word index .multiple pool).correctAnswer
      ∈ ((generateQuestionForWord mode optShuffle word index .multiple pool).options.getD [])
    ∧ (mode = .artikel →
        ((generateQuestionForWord mode optShuffle word index .multiple pool).options.getD
            []).count
          (generateQuestionForWord mode optShuffle word index .multiple pool).correctAnswer
          = 1) := by
  cases mode with
  | sentence => exact absurd rfl hmode
  | artikel =>
      constructor
      · simp only [generateQuestionForWord, reduceIte, Option.getD_some]
        have hp := hperm ((["der", "die", "das"].filter
          (fun a => a != orEmpty word.article)).concat (orEmpty word.article))
        exact hp.mem_iff.mpr (by simp)
      · intro _
        simp only [generateQuestionForWord, reduceIte, Option.getD_some]
        have hp := hperm ((["der", "die", "das"].filter
          (fun a => a != orEmpty word.article)).concat (orEmpty word.article))
        rw [hp.count_eq]
        rw [List.concat_eq_append, List.count_append]
        have hzero : (List.count (orEmpty word.article)
            (["der", "die", "das"].filter (fun a => a != orEmpty word.article))) = 0 := by
          rw [List.count_eq_zero]
          intro hmem
          rcases List.mem_filter.mp hmem with ⟨_, hne⟩
          simp at hne
        rw [hzero]
        simp
  | plural =>
      refine ⟨?_, fun hh => nomatch hh⟩
      simp only [generateQuestionForWord, reduceIte, Option.getD_some]
      exact mem_shuffled_concat optShuffle hperm _ _
  | trDe =>
      refine ⟨?_, fun hh => nomatch hh⟩
      simp only [generateQuestionForWord, reduceIte, Option.getD_some]
      exact mem_shuffled_concat optShuffle hperm _ _
  | deTr =>
      refine ⟨?_, fun hh => nomatch hh⟩
      simp only [generateQuestionForWord, reduceIte, Option.getD_some]
      exact mem_shuffled_concat optShuffle hperm _ _
  | wo =>
      refine ⟨?_, fun hh => nomatch hh⟩
      simp only [generateQuestionForWord, reduceIte, Option.getD_some]
      exact mem_shuffled_concat optShuffle hperm _ _
  | wohin =>
      refine ⟨?_, fun hh => nomatch hh⟩
      simp only [generateQuestionForWord, reduceIte, Option.getD_some]
      exact mem_shuffled_concat optShuffle hperm _ _
  | woher =>
      refine ⟨?_, fun hh => nomatch hh⟩
      simp only [generateQuestionForWord, reduceIte, Option.getD_some]
      exact mem_shuffled_concat optShuffle hperm _ _

/-- Witness for the amended C2 in artikel mode at a concrete word with
the identity option shuffle. -/
theorem multiple_choice_option_membership_witness :
    (generateQuestionForWord .artikel id wordLoeffel 0 .multiple []).correctAnswer
      ∈ ((generateQuestionForWord .artikel id wordLoeffel 0 .multiple []).options.getD [])
    ∧ (TestMode.artikel = .artikel →
        ((generateQuestionForWord .artikel id wordLoeffel 0 .multiple []).options.getD
            []).count
          (generateQuestionForWord .artikel id wordLoeffel 0 .multiple []).correctAnswer
          = 1) :=
  multiple_choice_option_membership .artikel id wordLoeffel 0 []
    (fun l => List.Perm.refl l) (by decide)

/-- C2 counterexample, both failures of the claim at concrete inputs:
in plural mode, a peer word sharing the plural Autos contributes the
correct answer itself as a distractor, so the options contain a second
occurrence of the correct answer; and in sentence mode, the default
branch leaves the options of a multiple-type question empty, so the
correct answer is not an element of the options. -/
theorem option_integrity_counterexample :
    ((generateQuestionForWord .plural id wordAuto1 0 .multiple [wordAuto1, wordAuto2]).type
      = .multiple
    ∧ (generateQuestionForWord .plural id wordAuto1 0 .multiple
        [wordAuto1, wordAuto2]).correctAnswer = "Autos"
    ∧ (generateQuestionForWord .plural id wordAuto1 0 .multiple
        [wordAuto1, wordAuto2]).options = some ["Autos", "Autos"]
    ∧ ¬(((generateQuestionForWord .plural id wordAuto1 0 .multiple
          [wordAuto1, wordAuto2]).options.getD []).count
        (generateQuestionForWord .plural id wordAuto1 0 .multiple
          [wordAuto1, wordAuto2]).correctAnswer ≤ 1))
    ∧ ((generateQuestionForWord .sentence id wordAuto1 0 .multiple [wordAuto1, wordAuto2]).type
      = .multiple
    ∧ (generateQuestionForWord .sentence id wordAuto1 0 .multiple
        [wordAuto1, wordAuto2]).options = some []
    ∧ (generateQuestionForWord .sentence id wordAuto1 0 .multiple
        [wordAuto1, wordAuto2]).correctAnswer
      ∉ ((generateQuestionForWord .sentence id wordAuto1 0 .multiple
          [wordAuto1, wordAuto2]).options.getD [])) := by
  decide

/-- C6 amended: in artikel mode with multiple type the options are
always the fixed article set der, die, das minus the correct answer,
with the correct answer appended, regardless of the peer pool; the
peers are never consulted. -/
theorem artikel_options_fixed_set (optShuffle : List String → List String)
    (word : Word) (index : Nat) (pool pool2 : List Word) :
    (generateQuestionForWord .artikel optShuffle word index .multiple pool).options
      = some (optShuffle ((["der", "die", "das"].filter
          (fun a => a != orEmpty word.article)).concat (orEmpty word.article)))
    ∧ generateQuestionForWord .artikel optShuffle word index .multiple pool
      = generateQuestionForWord .artikel optShuffle word index .multiple pool2 :=
  ⟨rfl, rfl⟩

/-- C6 counterexample: with peers present whose only article value is
die, the option das still appears as a distractor although no peer
carries it, so distractors are not drawn from the peers. -/
theorem artikel_ignores_peers_counterexample :
    "das" ∈ ((generateQuestionForWord .artikel id wordLoeffel 0 .multiple
        [wordLoeffel, wordGabel]).options.getD [])
    ∧ "das" ≠ (generateQuestionForWord .artikel id wordLoeffel 0 .multiple
        [wordLoeffel, wordGabel]).correctAnswer
    ∧ ∀ w ∈ [wordLoeffel, wordGabel], w.id ≠ wordLoeffel.id → orEmpty w.article ≠ "das" := by
  decide

/-- C7 amended: for the one-word pool whose wo value is zu Hause, mode
wo, type multiple and requested count 5, the session has exactly one
question and its options contain only the stored value zu Hause
verbatim, with a lowercase z and an uppercase H. -/
theorem degenerate_wo_single_option (shuffle : List Word → List Word)
    (optShuffles : Nat → List String → List String) (coin : Nat → Bool)
    (hsh : ∀ l, (shuffle l).Perm l) (hopt : ∀ i l, (optShuffles i l).Perm l) :
    (generateQuestions shuffle optShuffles coin .wo .multiple 5 [wordZuHause]).length = 1
    ∧ ∀ q ∈ generateQuestions shuffle optShuffles coin .wo .multiple 5 [wordZuHause],
        q.options = some ["zu Hause"] := by
  have h1 : shuffle [wordZuHause] = [wordZuHause] := List.perm_singleton.mp (hsh _)
  have h2 : optShuffles 0 ["zu Hause"] = ["zu Hause"] := List.perm_singleton.mp (hopt 0 _)
  have hq : generateQuestions shuffle optShuffles coin .wo .multiple 5 [wordZuHause]
      = [{ id := 0,
           question := "\"der Tisch\" için WO? (Nerede?) cevabı nedir?",
           correctAnswer := "zu Hause",
           options := some (optShuffles 0 ["zu Hause"]),
           type := .multiple }] := by
    unfold generateQuestions sampleWords
    rw [h1]
    rfl
  rw [hq, h2]
  constructor
  · rfl
  · intro q hmem
    rw [List.mem_singleton] at hmem
    rw [hmem]

/-- Witness for the amended C7 with the identity shuffles. -/
theorem degenerate_wo_single_option_witness :
    (generateQuestions id (fun _ => id) (fun _ => true) .wo .multiple 5 [wordZuHause]).length = 1
    ∧ ∀ q ∈ generateQuestions id (fun _ => id) (fun _ => true) .wo .multiple 5 [wordZuHause],
        q.options = some ["zu Hause"] :=
  degenerate_wo_single_option id (fun _ => id) (fun _ => true)
    (fun l => List.Perm.refl l) (fun _ l => List.Perm.refl l)

/-- C7 counterexample: the single option is the stored value zu Hause,
not the capitalized variant Zu hause named by the claim. -/
theorem degenerate_wo_capitalization_counterexample :
    (generateQuestions id (fun _ => id) (fun _ => true) .wo .multiple 5 [wordZuHause]).length = 1
    ∧ ∀ q ∈ generateQuestions id (fun _ => id) (fun _ => true) .wo .multiple 5 [wordZuHause],
        q.options = some ["zu Hause"] ∧ q.options ≠ some ["Zu hause"] := by
  decide

/-- C1, evaluation at the failing input: a pool whose only word has no
wo value is not filtered out; a wo-mode session on it generates one
question with an empty correct answer, which an unanswered response
matches, instead of remaining without questions. -/
theorem wo_mode_generates_empty_answer_questions :
    truthy wordTisch.wo = false
    ∧ (generateQuestions id (fun _ => id) (fun _ => true) .wo .multiple 1 [wordTisch]).length = 1
    ∧ generateQuestions id (fun _ => id) (fun _ => true) .wo .multiple 1 [wordTisch] ≠ []
    ∧ ∀ q ∈ generateQuestions id (fun _ => id) (fun _ => true) .wo .multiple 1 [wordTisch],
        q.correctAnswer = "" ∧ isCorrectAnswer none q.correctAnswer = true := by
  decide

/-- C3, evaluation at the failing input: the list with id 1 holds the
string form of the id of wordTisch in its wordIds, yet the resolved
pool is empty, because the membership test compares the numeric word id
against string entries under strict equality. -/
theorem favorite_list_pool_empty_despite_membership :
    toString wordTisch.id ∈ listEins.wordIds
    ∧ getFilteredWords .favorites none (some "1") [wordTisch] [] [listEins] = [] := by
  decide

/-- C9: a question generated for a word lacking the answer field of the
mode, for the modes reading their answer through the or-empty idiom,
carries the empty string as its correct answer, and leaving it
unanswered scores it as correct. -/
theorem missing_field_scores_correct (mode : TestMode)
    (optShuffle : List String → List String) (word : Word) (index : Nat)
    (ty : QType) (pool : List Word)
    (hmode : mode = .artikel ∨ mode = .plural ∨ mode = .wo ∨ mode = .wohin ∨ mode = .woher)
    (hfield : truthy (answerSource mode word) = false) :
    (generateQuestionForWord mode optShuffle word index ty pool).correctAnswer = ""
    ∧ isCorrectAnswer none
        (generateQuestionForWord mode optShuffle word index ty pool).correctAnswer = true
    ∧ getCorrectCount [generateQuestionForWord mode optShuffle word index ty pool]
        (fun _ => none) = 1 := by
  have hempty : orEmpty (answerSource mode word) = "" := by
    cases hv : answerSource mode word with
    | none => rfl
    | some s =>
        rw [hv] at hfield
        unfold truthy at hfield
        simp at hfield
        simp [orEmpty, hfield]
  have hca : (generateQuestionForWord mode optShuffle word index ty pool).correctAnswer = "" := by
    rcases hmode with rfl | rfl | rfl | rfl | rfl <;>
      simpa [generateQuestionForWord, answerSource] using hempty
  have hscore : isCorrectAnswer none
      (generateQuestionForWord mode optShuffle word index ty pool).correctAnswer = true := by
    rw [hca]
    decide
  refine ⟨hca, hscore, ?_⟩
  simp [getCorrectCount, List.enum, List.enumFrom, hscore]

/-- Witness for C9 in wo mode at a concrete word with no wo value. -/
theorem missing_field_scores_correct_witness :
    (generateQuestionForWord .wo id wordTisch 0 .fill []).correctAnswer = ""
    ∧ isCorrectAnswer none
        (generateQuestionForWord .wo id wordTisch 0 .fill []).correctAnswer = true
    ∧ getCorrectCount [generateQuestionForWord .wo id wordTisch 0 .fill []]
        (fun _ => none) = 1 :=
  missing_field_scores_correct .wo id wordTisch 0 .fill []
    (Or.inr (Or.inr (Or.inl rfl))) (by decide)

end DeutschLern
